import Mathlib

/-!
# Verification of `mest_chat_logging.py`

Shallow embedding of the chat-session object of the repository: the
`initialize_client` backend selector (embedded as `init_client`), the
`Chatbot` class with its constructor, and the `Chatbot.chat` operation
with its logging and error handling.  The external model backends are
opaque oracles (`BackendCall → BackendResult`); timestamps returned by
`datetime.now()` are supplied by an explicit `Clock`.
-/

/-- Message roles, as used in the `self.message` dictionaries. -/
inductive Role
  | system
  | user
  | assistant
deriving DecidableEq, Repr, Inhabited

/-- One entry of `self.message`: a dict with a role and a content string. -/
structure Message where
  role : Role
  content : String
deriving DecidableEq, Repr, Inhabited

/-- The handle returned by `initialize_client`: either a
`genai.GenerativeModel(modelId)` or an `OpenAI(base_url=..., api_key=...)`
client (`base_url` absent for the cloud completion variant; `api_key` is
`os.getenv` and may be absent). -/
inductive Client
  | generativeModel (modelId : String)
  | openaiClient (baseUrl : Option String) (apiKey : Option String)
deriving DecidableEq, Repr, Inhabited

/-- Embeds `initialize_client(use_ollama, use_gemini)` (source lines 28-38).
`env` is the process environment (`os.getenv`). -/
def init_client (use_ollama use_gemini : Bool) (env : String → Option String) : Client :=
  if use_gemini then
    Client.generativeModel "gemini-2.5-flash"
  else if use_ollama then
    Client.openaiClient (some "http://localhost:11434/v1") (some "ollama")
  else
    Client.openaiClient none (env "OPEN_API_KEY")

/-- The `Chatbot` object state (source lines 40-54).  The two uuid4 values
drawn in `__init__` are parameters of the constructor. -/
structure Chatbot where
  session_id : String
  user_id : String
  client : Client
  use_ollama : Bool
  use_gemini : Bool
  model_name : String
  message : List Message
deriving DecidableEq, Repr

/-- The fixed system instruction installed by `Chatbot.__init__`. -/
def systemMessage : Message :=
  { role := Role.system
    content := "You are a helpful assistant that can answer questions and help with task." }

/-- Embeds `Chatbot.__init__(use_ollama, use_gemini)` (source lines 41-54);
`sid` and `uid` stand for the two `str(uuid.uuid4())` draws. -/
def Chatbot.init (use_ollama use_gemini : Bool) (sid uid : String)
    (env : String → Option String) : Chatbot :=
  { session_id := sid
    user_id := uid
    client := init_client use_ollama use_gemini env
    use_ollama := use_ollama
    use_gemini := use_gemini
    model_name :=
      if use_gemini then "gemini-1.5-flash"
      else if !use_ollama then "gpt-4o-mini"
      else "llama3.2:8b"
    message := [systemMessage] }

/-- Log levels used by the log entries. -/
inductive Level
  | INFO
  | ERROR
deriving DecidableEq, Repr, Inhabited

/-- The `type` field of a log entry. -/
inductive RecType
  | user_input
  | model_response
  | error
deriving DecidableEq, Repr, Inhabited

/-- One JSON log entry, flattened: a field that a given entry type does not
carry is `none` (the `metadata` sub-dict is inlined). -/
structure LogRecord where
  timestamp : Nat
  level : Level
  rectype : RecType
  model_response : Option String := none
  error_message : Option String := none
  session_id : String
  user_id : Option String := none
  model : String
  response_time : Option Nat := none
  tokens_used : Option Nat := none
deriving DecidableEq, Repr

/-- What `chat` hands to the backend library: either
`start_chat(history=...).send_message(input)` on the generative handle, or
`chat.completions.create(model=..., messages=...)` on an OpenAI-style
handle. -/
inductive BackendCall
  | geminiSend (priorHistory : List Message) (input : String)
  | completionCreate (model : String) (messages : List Message)
deriving DecidableEq, Repr

/-- The opaque backend's behaviour on one call: a Gemini-shaped response
(`.text`), a completion-shaped response (`.choices` texts and the optional
`usage.total_tokens`), or a raised exception carrying `str(e)`. -/
inductive BackendResult
  | geminiResp (text : String)
  | completionResp (choices : List String) (usage : Option Nat)
  | exn (msg : String)
deriving Repr

/-- Timestamps for the up-to-five `datetime.now()` calls inside one `chat`
call, in source order: the `user_input` entry, `start_time`, `end_time`,
the `model_response` entry, the `error` entry. -/
structure Clock where
  tUserLog : Nat
  tStart : Nat
  tEnd : Nat
  tRespLog : Nat
  tErrLog : Nat
deriving DecidableEq, Repr

/-- The dispatch-and-extract step of `chat` (source lines 77-85), on the
post-append state: which call is made, and either the extracted
`(assistant_response, usage)` or the text of the caught exception.
Accessing `.text` / `.choices[0]` on a wrong-shaped or empty response
raises, and that exception is caught like any other. -/
def dispatch (bot : Chatbot) (user_input : String)
    (backend : BackendCall → BackendResult) :
    BackendCall × Except String (String × Option Nat) :=
  if bot.use_gemini then
    let call := BackendCall.geminiSend [] user_input
    match backend call with
    | BackendResult.geminiResp t => (call, Except.ok (t, none))
    | BackendResult.completionResp _ _ => (call, Except.error "AttributeError: text")
    | BackendResult.exn m => (call, Except.error m)
  else
    let call := BackendCall.completionCreate bot.model_name bot.message
    match backend call with
    | BackendResult.completionResp [] _ =>
        (call, Except.error "IndexError: list index out of range")
    | BackendResult.completionResp (c :: _) usage => (call, Except.ok (c, usage))
    | BackendResult.geminiResp _ => (call, Except.error "AttributeError: choices")
    | BackendResult.exn m => (call, Except.error m)

/-- Everything one `chat` call produces: the updated object state, the
returned string, the log entries emitted in order, and the backend call
made. -/
structure ChatResult where
  bot : Chatbot
  reply : String
  logs : List LogRecord
  call : BackendCall
deriving Repr

/-- The `user_input` log entry built at source lines 58-67: INFO level,
session id, user id and model name in the metadata, and no field holding
the input text. -/
def userRecord (bot : Chatbot) (t : Nat) : LogRecord :=
  { timestamp := t
    level := Level.INFO
    rectype := RecType.user_input
    session_id := bot.session_id
    user_id := some bot.user_id
    model := bot.model_name }

/-- The `model_response` log entry built at source lines 90-104.
`tokens_used` mirrors `response.usage.total_tokens if not self.use_gemini
and hasattr(response, 'usage') else None`. -/
def respRecord (bot : Chatbot) (assistant_response : String) (usage : Option Nat)
    (ck : Clock) : LogRecord :=
  { timestamp := ck.tRespLog
    level := Level.INFO
    rectype := RecType.model_response
    model_response := some assistant_response
    session_id := bot.session_id
    model := bot.model_name
    response_time := some (ck.tEnd - ck.tStart)
    tokens_used := if bot.use_gemini then none else usage }

/-- The `error` log entry built at source lines 116-126. -/
def errRecord (bot : Chatbot) (e : String) (t : Nat) : LogRecord :=
  { timestamp := t
    level := Level.ERROR
    rectype := RecType.error
    error_message := some e
    session_id := bot.session_id
    user_id := some bot.user_id
    model := bot.model_name }

/-- The fixed apology string returned on the failure path (source line 128). -/
def apology (e : String) : String :=
  "Sorry, something evil happened in the universe: " ++ e

/-- The `user` message appended at source lines 70-73. -/
def userMessage (user_input : String) : Message :=
  { role := Role.user, content := user_input }

/-- The `assistant` message appended at source lines 107-112. -/
def assistantMessage (assistant_response : String) : Message :=
  { role := Role.assistant, content := assistant_response }

/-- Embeds `Chatbot.chat(user_input)` (source lines 56-128). -/
def Chatbot.chat (bot : Chatbot) (user_input : String)
    (backend : BackendCall → BackendResult) (ck : Clock) : ChatResult :=
  let userLog := userRecord bot ck.tUserLog
  let bot1 : Chatbot := { bot with message := bot.message ++ [userMessage user_input] }
  match dispatch bot1 user_input backend with
  | (call, Except.ok p) =>
      let bot2 : Chatbot :=
        { bot1 with message := bot1.message ++ [assistantMessage p.1] }
      { bot := bot2
        reply := p.1
        logs := [userLog, respRecord bot p.1 p.2 ck]
        call := call }
  | (call, Except.error e) =>
      { bot := bot1
        reply := apology e
        logs := [userLog, errRecord bot e ck.tErrLog]
        call := call }

/-- The environment of one `chat` call in a sequence: the user input, the
backend's behaviour for this round trip, and the wall clock. -/
structure CallEnv where
  input : String
  backend : BackendCall → BackendResult
  clock : Clock

/-- Runs a sequence of `chat` calls on one instance, collecting each call's
result. -/
def runChats : Chatbot → List CallEnv → Chatbot × List ChatResult
  | bot, [] => (bot, [])
  | bot, e :: es =>
      let r := bot.chat e.input e.backend e.clock
      let rest := runChats r.bot es
      (rest.1, r :: rest.2)

/-- A `chat` call succeeded when it logged a `model_response` entry. -/
def ChatResult.succeeded (r : ChatResult) : Bool :=
  r.logs.any (fun l => l.rectype == RecType.model_response)

/-- Embeds the flag computation of `main` (source lines 143-144) after the
menu loop has accepted `choice`: `use_ollama = (choice == "2")`,
`use_gemini = (choice == "3")`. -/
def mainFlags (choice : String) : Bool × Bool :=
  (choice == "2", choice == "3")

/-! ## Sample inputs used by the witnesses -/

/-- An empty process environment. -/
def sampleEnvEmpty : String → Option String := fun _ => none

/-- A `Chatbot(use_ollama=True, use_gemini=False)` instance. -/
def sampleBot : Chatbot := Chatbot.init true false "sid-0" "uid-0" sampleEnvEmpty

/-- A `Chatbot(use_ollama=False, use_gemini=True)` instance. -/
def sampleGeminiBot : Chatbot := Chatbot.init false true "sid-0" "uid-0" sampleEnvEmpty

/-- A backend that always raises an exception reading `rate limited`. -/
def failingBackend : BackendCall → BackendResult := fun _ => BackendResult.exn "rate limited"

/-- A completion-style backend answering `hi there` with 17 total tokens. -/
def okBackend : BackendCall → BackendResult :=
  fun _ => BackendResult.completionResp ["hi there"] (some 17)

/-- A Gemini-style backend answering `hi`. -/
def geminiOkBackend : BackendCall → BackendResult := fun _ => BackendResult.geminiResp "hi"

/-- A fixed wall clock for the sample calls. -/
def sampleClock : Clock := { tUserLog := 1, tStart := 2, tEnd := 5, tRespLog := 6, tErrLog := 7 }

/-- A one-call run whose only call succeeds. -/
def sampleEnvs : List CallEnv :=
  [{ input := "hello", backend := okBackend, clock := sampleClock }]

/-! ## Per-call case analysis -/

/-- Case analysis of one `chat` call: either dispatch succeeded, the call
appended the user then the assistant message, returned the reply and logged
`user_input` then `model_response`; or dispatch raised, the call appended
only the user message, returned the apology and logged `user_input` then
`error`. -/
theorem chat_cases (bot : Chatbot) (ui : String) (backend : BackendCall → BackendResult)
    (ck : Clock) :
    (∃ t usage,
        (dispatch { bot with message := bot.message ++ [userMessage ui] } ui backend).2
          = Except.ok (t, usage)
      ∧ bot.chat ui backend ck =
          { bot := { bot with message := bot.message ++ [userMessage ui, assistantMessage t] }
            reply := t
            logs := [userRecord bot ck.tUserLog, respRecord bot t usage ck]
            call := (dispatch { bot with message := bot.message ++ [userMessage ui] }
                      ui backend).1 })
  ∨ (∃ e,
        (dispatch { bot with message := bot.message ++ [userMessage ui] } ui backend).2
          = Except.error e
      ∧ bot.chat ui backend ck =
          { bot := { bot with message := bot.message ++ [userMessage ui] }
            reply := apology e
            logs := [userRecord bot ck.tUserLog, errRecord bot e ck.tErrLog]
            call := (dispatch { bot with message := bot.message ++ [userMessage ui] }
                      ui backend).1 }) := by
  simp only [Chatbot.chat]
  split
  case _ call p heq =>
    rcases p with ⟨t, usage⟩
    refine Or.inl ⟨t, usage, ?_, ?_⟩
    · rw [heq]
    · rw [heq]
      simp [List.append_assoc]
  case _ call e heq =>
    refine Or.inr ⟨e, ?_, ?_⟩
    · rw [heq]
    · rw [heq]

/-- The `chat` call only ever changes the `message` field of the object: identifiers,
flags, client handle and model name are untouched. -/
theorem chat_preserves_fields (bot : Chatbot) (ui : String)
    (backend : BackendCall → BackendResult) (ck : Clock) :
    (bot.chat ui backend ck).bot.session_id = bot.session_id
  ∧ (bot.chat ui backend ck).bot.user_id = bot.user_id
  ∧ (bot.chat ui backend ck).bot.model_name = bot.model_name
  ∧ (bot.chat ui backend ck).bot.use_gemini = bot.use_gemini
  ∧ (bot.chat ui backend ck).bot.use_ollama = bot.use_ollama
  ∧ (bot.chat ui backend ck).bot.client = bot.client := by
  simp only [Chatbot.chat]
  split <;> exact ⟨rfl, rfl, rfl, rfl, rfl, rfl⟩

/-- A `chat` call counts as succeeded exactly when dispatch returned a
value. -/
theorem chat_succeeded_iff (bot : Chatbot) (ui : String)
    (backend : BackendCall → BackendResult) (ck : Clock) :
    (bot.chat ui backend ck).succeeded = true ↔
      ∃ p, (dispatch { bot with message := bot.message ++ [userMessage ui] } ui backend).2
             = Except.ok p := by
  rcases chat_cases bot ui backend ck with ⟨t, usage, hd, hr⟩ | ⟨e, hd, hr⟩ <;> rw [hr]
  · simp only [ChatResult.succeeded, List.any_cons, List.any_nil,
      userRecord, respRecord]
    exact ⟨fun _ => ⟨(t, usage), hd⟩, fun _ => by decide⟩
  · simp only [ChatResult.succeeded, List.any_cons, List.any_nil,
      userRecord, errRecord]
    constructor
    · intro h
      exact absurd h (by decide)
    · rintro ⟨p, hp⟩
      rw [hd] at hp
      cases hp

/-- The history after one `chat` call: the old history with the user message
appended, then the assistant message too when the call succeeded. -/
theorem chat_message_evolution (bot : Chatbot) (ui : String)
    (backend : BackendCall → BackendResult) (ck : Clock) :
    ((bot.chat ui backend ck).succeeded = true
      ∧ (bot.chat ui backend ck).bot.message
          = bot.message ++ [userMessage ui, assistantMessage (bot.chat ui backend ck).reply])
  ∨ ((bot.chat ui backend ck).succeeded = false
      ∧ (bot.chat ui backend ck).bot.message = bot.message ++ [userMessage ui]) := by
  rcases chat_cases bot ui backend ck with ⟨t, usage, hd, hr⟩ | ⟨e, hd, hr⟩
  · left
    refine ⟨(chat_succeeded_iff bot ui backend ck).mpr ⟨(t, usage), hd⟩, ?_⟩
    rw [hr]
  · right
    constructor
    · rcases h : (bot.chat ui backend ck).succeeded with _ | _
      · rfl
      · rcases (chat_succeeded_iff bot ui backend ck).mp h with ⟨p, hp⟩
        rw [hd] at hp
        cases hp
    · rw [hr]

/-! ## Run-level lemmas -/

/-- A run produces one result per call. -/
theorem runChats_length (bot : Chatbot) (envs : List CallEnv) :
    (runChats bot envs).2.length = envs.length := by
  induction envs generalizing bot with
  | nil => rfl
  | cons e es ih => simp [runChats, ih]

/-- History length after a run: each succeeded call contributes two
messages, each failed call one. -/
theorem runChats_message_length (bot : Chatbot) (envs : List CallEnv) :
    (runChats bot envs).1.message.length
      = bot.message.length
        + 2 * ((runChats bot envs).2.filter ChatResult.succeeded).length
        + ((runChats bot envs).2.filter (fun r => !r.succeeded)).length := by
  induction envs generalizing bot with
  | nil => simp [runChats]
  | cons e es ih =>
    simp only [runChats]
    rcases chat_message_evolution bot e.input e.backend e.clock with ⟨hs, hm⟩ | ⟨hs, hm⟩
    · rw [List.filter_cons_of_pos hs, List.filter_cons_of_neg (by simp [hs]), ih]
      have hl : (bot.chat e.input e.backend e.clock).bot.message.length
          = bot.message.length + 2 := by
        rw [hm]; simp
      simp only [List.length_cons]
      omega
    · rw [List.filter_cons_of_neg (by simp [hs]), List.filter_cons_of_pos (by simp [hs]), ih]
      have hl : (bot.chat e.input e.backend e.clock).bot.message.length
          = bot.message.length + 1 := by
        rw [hm]; simp
      simp only [List.length_cons]
      omega

/-- When every call of a run succeeded, the final history is the initial
history followed, in call order, by each call's user message and the
assistant message holding that call's reply. -/
theorem runChats_all_success_message (envs : List CallEnv) (bot : Chatbot)
    (h : (runChats bot envs).2.all ChatResult.succeeded = true) :
    (runChats bot envs).1.message
      = bot.message
          ++ (List.zipWith
                (fun e r => [userMessage e.input, assistantMessage r.reply])
                envs (runChats bot envs).2).flatten := by
  induction envs generalizing bot with
  | nil => simp [runChats]
  | cons e es ih =>
    simp only [runChats, List.all_cons, Bool.and_eq_true] at h ⊢
    obtain ⟨hs, hall⟩ := h
    rcases chat_message_evolution bot e.input e.backend e.clock with ⟨hs2, hm⟩ | ⟨hs2, hm⟩
    · rw [List.zipWith_cons_cons, List.flatten, ih _ hall, hm]
      simp [List.append_assoc]
    · simp [hs] at hs2

/-- Both branches of `chat` log the `user_input` entry first. -/
theorem chat_logs_head (bot : Chatbot) (ui : String)
    (backend : BackendCall → BackendResult) (ck : Clock) :
    ∃ second, (bot.chat ui backend ck).logs = [userRecord bot ck.tUserLog, second] := by
  rcases chat_cases bot ui backend ck with ⟨t, usage, hd, hr⟩ | ⟨e, hd, hr⟩ <;>
    rw [hr] <;> exact ⟨_, rfl⟩

/-- Which backend call `dispatch` makes, by variant. -/
theorem dispatch_call (bot : Chatbot) (ui : String)
    (backend : BackendCall → BackendResult) :
    (dispatch bot ui backend).1
      = if bot.use_gemini then BackendCall.geminiSend [] ui
        else BackendCall.completionCreate bot.model_name bot.message := by
  simp only [dispatch]
  split
  · split <;> rfl
  · split <;> rfl

/-- The call reported by `chat` is exactly the one `dispatch` made on the post-append
state. -/
theorem chat_call_eq (bot : Chatbot) (ui : String)
    (backend : BackendCall → BackendResult) (ck : Clock) :
    (bot.chat ui backend ck).call
      = (dispatch { bot with message := bot.message ++ [userMessage ui] } ui backend).1 := by
  rcases chat_cases bot ui backend ck with ⟨t, usage, hd, hr⟩ | ⟨e, hd, hr⟩ <;> rw [hr]

/-- On a completion-style variant, a backend response with a first choice
makes `dispatch` return that first choice and the reported usage. -/
theorem dispatch_completion (bot : Chatbot) (ui : String)
    (backend : BackendCall → BackendResult)
    (hg : bot.use_gemini = false) (c : String) (rest : List String) (usage : Option Nat)
    (hb : backend (BackendCall.completionCreate bot.model_name bot.message)
            = BackendResult.completionResp (c :: rest) usage) :
    (dispatch bot ui backend).2 = Except.ok (c, usage) := by
  simp only [dispatch, hg]
  simp [hb]

/-- Every run result is either a success or a failure, so the two filters
split the result list. -/
theorem filter_length_split (l : List ChatResult) :
    (l.filter ChatResult.succeeded).length
      + (l.filter (fun r => !r.succeeded)).length = l.length := by
  induction l with
  | nil => rfl
  | cons a l ih => cases h : a.succeeded <;> simp [List.filter_cons, h] <;> omega

/-! ## Claim theorems -/

/-- C2: every call to `Chatbot.chat` emits exactly one log entry of type
`user_input` and exactly one entry drawn from {`model_response`, `error`} —
never both and never neither. -/
theorem chat_logging_completeness (bot : Chatbot) (ui : String)
    (backend : BackendCall → BackendResult) (ck : Clock) :
    ((bot.chat ui backend ck).logs.countP
        (fun l => l.rectype == RecType.user_input)) = 1
  ∧ ((bot.chat ui backend ck).logs.countP
        (fun l => l.rectype == RecType.model_response || l.rectype == RecType.error)) = 1 := by
  rcases chat_cases bot ui backend ck with ⟨t, usage, hd, hr⟩ | ⟨e, hd, hr⟩ <;>
    rw [hr] <;>
    simp [List.countP_cons, userRecord, respRecord, errRecord]

/-- C3: when dispatch or extraction raises, `chat` does not raise to its
caller: it logs the `user_input` entry and then exactly one ERROR-level
`error` entry carrying the error text, session id, user id and model name;
it returns a string containing the error text; and the history keeps
exactly the user message appended before dispatch, nothing else. -/
theorem chat_error_path (bot : Chatbot) (ui : String)
    (backend : BackendCall → BackendResult) (ck : Clock) (e : String)
    (h : (dispatch { bot with message := bot.message ++ [userMessage ui] } ui backend).2
           = Except.error e) :
    (bot.chat ui backend ck).logs
        = [userRecord bot ck.tUserLog, errRecord bot e ck.tErrLog]
  ∧ (errRecord bot e ck.tErrLog).level = Level.ERROR
  ∧ (errRecord bot e ck.tErrLog).rectype = RecType.error
  ∧ (errRecord bot e ck.tErrLog).error_message = some e
  ∧ (errRecord bot e ck.tErrLog).session_id = bot.session_id
  ∧ (errRecord bot e ck.tErrLog).user_id = some bot.user_id
  ∧ (errRecord bot e ck.tErrLog).model = bot.model_name
  ∧ (∃ s, (bot.chat ui backend ck).reply = s ++ e)
  ∧ (bot.chat ui backend ck).bot.message = bot.message ++ [userMessage ui] := by
  rcases chat_cases bot ui backend ck with ⟨t, usage, hd, hr⟩ | ⟨e2, hd, hr⟩
  · rw [h] at hd
    cases hd
  · rw [h] at hd
    injection hd with he
    subst he
    rw [hr]
    exact ⟨rfl, rfl, rfl, rfl, rfl, rfl, rfl,
      ⟨"Sorry, something evil happened in the universe: ", rfl⟩, rfl⟩

/-- Witness for C3 at a concrete failing call. -/
theorem chat_error_path_witness :
    ((dispatch { sampleBot with message := sampleBot.message ++ [userMessage "hello"] }
        "hello" failingBackend).2 = Except.error "rate limited")
  ∧ ((sampleBot.chat "hello" failingBackend sampleClock).logs
        = [userRecord sampleBot sampleClock.tUserLog,
           errRecord sampleBot "rate limited" sampleClock.tErrLog]
    ∧ (errRecord sampleBot "rate limited" sampleClock.tErrLog).level = Level.ERROR
    ∧ (errRecord sampleBot "rate limited" sampleClock.tErrLog).rectype = RecType.error
    ∧ (errRecord sampleBot "rate limited" sampleClock.tErrLog).error_message
        = some "rate limited"
    ∧ (errRecord sampleBot "rate limited" sampleClock.tErrLog).session_id
        = sampleBot.session_id
    ∧ (errRecord sampleBot "rate limited" sampleClock.tErrLog).user_id
        = some sampleBot.user_id
    ∧ (errRecord sampleBot "rate limited" sampleClock.tErrLog).model = sampleBot.model_name
    ∧ (∃ s, (sampleBot.chat "hello" failingBackend sampleClock).reply = s ++ "rate limited")
    ∧ (sampleBot.chat "hello" failingBackend sampleClock).bot.message
        = sampleBot.message ++ [userMessage "hello"]) :=
  ⟨rfl, chat_error_path sampleBot "hello" failingBackend sampleClock "rate limited" rfl⟩

/-- C7: the `model_response` entry emitted on a successful call is
INFO-level and carries the full reply text, the session id, the model name,
the elapsed wall-clock latency, and the usage count exactly when the
backend reported one; on the generative variant it is always `none`. -/
theorem model_response_record_content (bot : Chatbot) (ui : String)
    (backend : BackendCall → BackendResult) (ck : Clock) (t : String) (usage : Option Nat)
    (h : (dispatch { bot with message := bot.message ++ [userMessage ui] } ui backend).2
           = Except.ok (t, usage)) :
    (bot.chat ui backend ck).logs
        = [userRecord bot ck.tUserLog, respRecord bot t usage ck]
  ∧ (respRecord bot t usage ck).level = Level.INFO
  ∧ (respRecord bot t usage ck).rectype = RecType.model_response
  ∧ (respRecord bot t usage ck).model_response = some (bot.chat ui backend ck).reply
  ∧ (respRecord bot t usage ck).session_id = bot.session_id
  ∧ (respRecord bot t usage ck).model = bot.model_name
  ∧ (respRecord bot t usage ck).response_time = some (ck.tEnd - ck.tStart)
  ∧ (respRecord bot t usage ck).tokens_used = (if bot.use_gemini then none else usage)
  ∧ (bot.use_gemini = true → (respRecord bot t usage ck).tokens_used = none) := by
  rcases chat_cases bot ui backend ck with ⟨t2, usage2, hd, hr⟩ | ⟨e, hd, hr⟩
  · rw [h] at hd
    injection hd with hp
    injection hp with ht hu
    subst ht
    subst hu
    rw [hr]
    exact ⟨rfl, rfl, rfl, rfl, rfl, rfl, rfl, rfl, fun hg => by simp [respRecord, hg]⟩
  · rw [h] at hd
    cases hd

/-- Witness for C7 at a concrete successful call. -/
theorem model_response_record_content_witness :
    ((dispatch { sampleBot with message := sampleBot.message ++ [userMessage "hello"] }
        "hello" okBackend).2 = Except.ok ("hi there", some 17))
  ∧ ((sampleBot.chat "hello" okBackend sampleClock).logs
        = [userRecord sampleBot sampleClock.tUserLog,
           respRecord sampleBot "hi there" (some 17) sampleClock]
    ∧ (respRecord sampleBot "hi there" (some 17) sampleClock).level = Level.INFO
    ∧ (respRecord sampleBot "hi there" (some 17) sampleClock).rectype
        = RecType.model_response
    ∧ (respRecord sampleBot "hi there" (some 17) sampleClock).model_response
        = some (sampleBot.chat "hello" okBackend sampleClock).reply
    ∧ (respRecord sampleBot "hi there" (some 17) sampleClock).session_id
        = sampleBot.session_id
    ∧ (respRecord sampleBot "hi there" (some 17) sampleClock).model = sampleBot.model_name
    ∧ (respRecord sampleBot "hi there" (some 17) sampleClock).response_time
        = some (sampleClock.tEnd - sampleClock.tStart)
    ∧ (respRecord sampleBot "hi there" (some 17) sampleClock).tokens_used
        = (if sampleBot.use_gemini then none else some 17)
    ∧ (sampleBot.use_gemini = true →
        (respRecord sampleBot "hi there" (some 17) sampleClock).tokens_used = none)) :=
  ⟨rfl, model_response_record_content sampleBot "hello" okBackend sampleClock
    "hi there" (some 17) rfl⟩

/-- C8: the `user_input` entry carries session id, user id and model name
but never the input text: two calls on the same instance with any two
inputs produce `user_input` entries identical apart from their
timestamps. -/
theorem user_input_record_no_text (bot : Chatbot) (ui1 ui2 : String)
    (b1 b2 : BackendCall → BackendResult) (ck1 ck2 : Clock) :
    ∃ rec1 rec2 rest1 rest2,
        (bot.chat ui1 b1 ck1).logs = rec1 :: rest1
      ∧ ((bot.chat ui1 b1 ck1).bot.chat ui2 b2 ck2).logs = rec2 :: rest2
      ∧ rec1.rectype = RecType.user_input
      ∧ rec2.rectype = RecType.user_input
      ∧ { rec1 with timestamp := 0 } = { rec2 with timestamp := 0 } := by
  obtain ⟨s1, h1⟩ := chat_logs_head bot ui1 b1 ck1
  obtain ⟨s2, h2⟩ := chat_logs_head ((bot.chat ui1 b1 ck1).bot) ui2 b2 ck2
  obtain ⟨hs, hu, hm, -⟩ := chat_preserves_fields bot ui1 b1 ck1
  refine ⟨userRecord bot ck1.tUserLog,
          userRecord ((bot.chat ui1 b1 ck1).bot) ck2.tUserLog, _, _, h1, h2, rfl, rfl, ?_⟩
  simp [userRecord, hs, hu, hm]

/-- Counterexample to C4 as stated: on a concrete successful call, the
`model_response` entry carries no user id at all, while the instance's
user id is `uid-0` — so the user id does not appear on every entry type. -/
theorem model_response_lacks_user_id :
    (sampleBot.chat "hello" okBackend sampleClock).logs.map
        (fun l => (l.rectype, l.user_id))
      = [(RecType.user_input, some "uid-0"), (RecType.model_response, none)]
  ∧ sampleBot.user_id = "uid-0"
  ∧ (none : Option String) ≠ some "uid-0" :=
  ⟨rfl, rfl, by decide⟩

/-- C4 amended: the session id and user id are fixed at construction and
never change across `chat` calls; the session id and model name appear
identically on every log entry the instance emits; the user id appears
identically on every `user_input` and `error` entry, while `model_response`
entries carry no user id. -/
theorem identifier_stability (bot : Chatbot) (ui : String)
    (backend : BackendCall → BackendResult) (ck : Clock) :
    (bot.chat ui backend ck).bot.session_id = bot.session_id
  ∧ (bot.chat ui backend ck).bot.user_id = bot.user_id
  ∧ ((bot.chat ui backend ck).logs.all
        (fun l => l.session_id == bot.session_id && l.model == bot.model_name)) = true
  ∧ ((bot.chat ui backend ck).logs.all
        (fun l => l.user_id
          == (if l.rectype == RecType.model_response then none else some bot.user_id)))
      = true := by
  obtain ⟨hs, hu, -, -, -, -⟩ := chat_preserves_fields bot ui backend ck
  refine ⟨hs, hu, ?_, ?_⟩ <;>
    rcases chat_cases bot ui backend ck with ⟨t, usage, hd, hr⟩ | ⟨e, hd, hr⟩ <;>
    rw [hr] <;>
    simp [userRecord, respRecord, errRecord]

/-- C5 evidence: with the generative variant (menu choice 3), the handle is
configured to invoke `gemini-2.5-flash`, yet the display name the session
reports and stamps on every log entry is `gemini-1.5-flash` — a different
string. -/
theorem gemini_model_name_mismatch :
    sampleGeminiBot.client = Client.generativeModel "gemini-2.5-flash"
  ∧ sampleGeminiBot.model_name = "gemini-1.5-flash"
  ∧ (sampleGeminiBot.chat "hi" geminiOkBackend sampleClock).logs.map LogRecord.model
      = ["gemini-1.5-flash", "gemini-1.5-flash"]
  ∧ ("gemini-2.5-flash" : String) ≠ "gemini-1.5-flash" :=
  ⟨rfl, rfl, rfl, by decide⟩

/-- C6: on the generative variant every call opens a fresh exchange with
empty prior history and sends only the current input, while the local
history still grows behind the appended user message; on the other two
variants the entire accumulated history (system message plus all appended
turns, including the just-appended user message) is sent as context, and
the reply returned is the message text of the first choice of the
response. -/
theorem dispatch_context_shape (bot : Chatbot) (ui : String)
    (backend : BackendCall → BackendResult) (ck : Clock) :
    (bot.use_gemini = true →
        (bot.chat ui backend ck).call = BackendCall.geminiSend [] ui
      ∧ (∃ tail, (bot.chat ui backend ck).bot.message
            = bot.message ++ [userMessage ui] ++ tail))
  ∧ (bot.use_gemini = false →
        (bot.chat ui backend ck).call
            = BackendCall.completionCreate bot.model_name (bot.message ++ [userMessage ui])
      ∧ (∀ c rest usage,
            backend (BackendCall.completionCreate bot.model_name
                      (bot.message ++ [userMessage ui]))
                = BackendResult.completionResp (c :: rest) usage
            → (bot.chat ui backend ck).reply = c)) := by
  have hcall := chat_call_eq bot ui backend ck
  have hdc := dispatch_call { bot with message := bot.message ++ [userMessage ui] } ui backend
  constructor
  · intro hg
    constructor
    · rw [hcall, hdc]
      simp [hg]
    · rcases chat_message_evolution bot ui backend ck with ⟨-, hm⟩ | ⟨-, hm⟩
      · exact ⟨[assistantMessage (bot.chat ui backend ck).reply], by simp [hm]⟩
      · exact ⟨[], by simp [hm]⟩
  · intro hg
    constructor
    · rw [hcall, hdc]
      simp [hg]
    · intro c rest usage hb
      have hok : (dispatch { bot with message := bot.message ++ [userMessage ui] }
                    ui backend).2 = Except.ok (c, usage) :=
        dispatch_completion { bot with message := bot.message ++ [userMessage ui] }
          ui backend hg c rest usage hb
      rcases chat_cases bot ui backend ck with ⟨t2, usage2, hd, hr⟩ | ⟨e, hd, hr⟩
      · rw [hok] at hd
        injection hd with hp
        injection hp with ht hu
        rw [hr]
        exact ht.symm
      · rw [hok] at hd
        cases hd

/-- Witness for C6: one generative call and one completion call at concrete
inputs. -/
theorem dispatch_context_shape_witness :
    ((sampleGeminiBot.chat "hi" geminiOkBackend sampleClock).call
        = BackendCall.geminiSend [] "hi")
  ∧ (∃ tail, (sampleGeminiBot.chat "hi" geminiOkBackend sampleClock).bot.message
        = sampleGeminiBot.message ++ [userMessage "hi"] ++ tail)
  ∧ ((sampleBot.chat "hello" okBackend sampleClock).call
        = BackendCall.completionCreate sampleBot.model_name
            (sampleBot.message ++ [userMessage "hello"]))
  ∧ (sampleBot.chat "hello" okBackend sampleClock).reply = "hi there" :=
  ⟨((dispatch_context_shape sampleGeminiBot "hi" geminiOkBackend sampleClock).1 rfl).1,
   ((dispatch_context_shape sampleGeminiBot "hi" geminiOkBackend sampleClock).1 rfl).2,
   ((dispatch_context_shape sampleBot "hello" okBackend sampleClock).2 rfl).1,
   ((dispatch_context_shape sampleBot "hello" okBackend sampleClock).2 rfl).2
     "hi there" [] (some 17) rfl⟩

/-- In an all-success result list, the success filter keeps everything and
the failure filter keeps nothing. -/
theorem all_success_filter_lengths (l : List ChatResult)
    (h : l.all ChatResult.succeeded = true) :
    (l.filter ChatResult.succeeded).length = l.length
  ∧ (l.filter (fun r => !r.succeeded)).length = 0 := by
  induction l with
  | nil => exact ⟨rfl, rfl⟩
  | cons a l ih =>
    simp only [List.all_cons, Bool.and_eq_true] at h
    obtain ⟨ha, hl⟩ := h
    obtain ⟨h1, h2⟩ := ih hl
    rw [List.filter_cons_of_pos ha, List.filter_cons_of_neg (by simp [ha])]
    simp [h1, h2]

/-- C9: the accepted menu choice determines the backend variant and the
model display name deterministically: `"1"` gives the cloud completion
client with `gpt-4o-mini`, `"2"` the local client at the fixed local
endpoint with `llama3.2:8b`, `"3"` the generative client with display name
`gemini-1.5-flash`. -/
theorem menu_choice_mapping (env : String → Option String) (sid uid : String) :
    (Chatbot.init (mainFlags "1").1 (mainFlags "1").2 sid uid env).client
        = Client.openaiClient none (env "OPEN_API_KEY")
  ∧ (Chatbot.init (mainFlags "1").1 (mainFlags "1").2 sid uid env).model_name = "gpt-4o-mini"
  ∧ (Chatbot.init (mainFlags "2").1 (mainFlags "2").2 sid uid env).client
        = Client.openaiClient (some "http://localhost:11434/v1") (some "ollama")
  ∧ (Chatbot.init (mainFlags "2").1 (mainFlags "2").2 sid uid env).model_name = "llama3.2:8b"
  ∧ (Chatbot.init (mainFlags "3").1 (mainFlags "3").2 sid uid env).client
        = Client.generativeModel "gemini-2.5-flash"
  ∧ (Chatbot.init (mainFlags "3").1 (mainFlags "3").2 sid uid env).model_name
        = "gemini-1.5-flash" :=
  ⟨rfl, rfl, rfl, rfl, rfl, rfl⟩

/-- C10: after any interleaving of successful and failed `chat` calls, the
history holds the system message, two messages per successful call and one
per failed call: length 1 + 2S + F, with S + F the number of calls. -/
theorem history_length_general (use_ollama use_gemini : Bool) (sid uid : String)
    (env : String → Option String) (envs : List CallEnv) :
    (runChats (Chatbot.init use_ollama use_gemini sid uid env) envs).1.message.length
        = 1 + 2 * ((runChats (Chatbot.init use_ollama use_gemini sid uid env) envs).2.filter
                      ChatResult.succeeded).length
            + ((runChats (Chatbot.init use_ollama use_gemini sid uid env) envs).2.filter
                  (fun r => !r.succeeded)).length
  ∧ ((runChats (Chatbot.init use_ollama use_gemini sid uid env) envs).2.filter
        ChatResult.succeeded).length
      + ((runChats (Chatbot.init use_ollama use_gemini sid uid env) envs).2.filter
            (fun r => !r.succeeded)).length
      = envs.length := by
  have h := runChats_message_length (Chatbot.init use_ollama use_gemini sid uid env) envs
  have hsplit := filter_length_split
    (runChats (Chatbot.init use_ollama use_gemini sid uid env) envs).2
  have hlen := runChats_length (Chatbot.init use_ollama use_gemini sid uid env) envs
  constructor
  · rw [h]
    rfl
  · rw [hsplit, hlen]

/-- C1: after a run in which every `chat` call succeeded, the history is
the system instruction followed, in insertion order, by each call's user
message immediately followed by its assistant message; its length is
1 + 2N and its first element the system instruction. -/
theorem history_invariant_success (use_ollama use_gemini : Bool) (sid uid : String)
    (env : String → Option String) (envs : List CallEnv)
    (h : (runChats (Chatbot.init use_ollama use_gemini sid uid env) envs).2.all
           ChatResult.succeeded = true) :
    (runChats (Chatbot.init use_ollama use_gemini sid uid env) envs).1.message
        = systemMessage
            :: (List.zipWith (fun e r => [userMessage e.input, assistantMessage r.reply])
                  envs
                  (runChats (Chatbot.init use_ollama use_gemini sid uid env) envs).2).flatten
  ∧ (runChats (Chatbot.init use_ollama use_gemini sid uid env) envs).1.message.length
        = 1 + 2 * envs.length
  ∧ (runChats (Chatbot.init use_ollama use_gemini sid uid env) envs).1.message.head?
        = some systemMessage := by
  have hmsg := runChats_all_success_message envs (Chatbot.init use_ollama use_gemini sid uid env) h
  have hshape : (runChats (Chatbot.init use_ollama use_gemini sid uid env) envs).1.message
      = systemMessage
          :: (List.zipWith (fun e r => [userMessage e.input, assistantMessage r.reply])
                envs
                (runChats (Chatbot.init use_ollama use_gemini sid uid env) envs).2).flatten := by
    rw [hmsg]
    rfl
  refine ⟨hshape, ?_, ?_⟩
  · have h1 := runChats_message_length (Chatbot.init use_ollama use_gemini sid uid env) envs
    obtain ⟨hS, hF⟩ := all_success_filter_lengths _ h
    have hlen := runChats_length (Chatbot.init use_ollama use_gemini sid uid env) envs
    rw [h1, hS, hF, hlen]
    rfl
  · rw [hshape]
    rfl

/-- Witness for C1: a one-call run with a stubbed completion backend. -/
theorem history_invariant_success_witness :
    ((runChats (Chatbot.init true false "sid-0" "uid-0" sampleEnvEmpty) sampleEnvs).2.all
        ChatResult.succeeded = true)
  ∧ ((runChats (Chatbot.init true false "sid-0" "uid-0" sampleEnvEmpty) sampleEnvs).1.message
        = systemMessage
            :: (List.zipWith (fun e r => [userMessage e.input, assistantMessage r.reply])
                  sampleEnvs
                  (runChats (Chatbot.init true false "sid-0" "uid-0" sampleEnvEmpty)
                    sampleEnvs).2).flatten
    ∧ (runChats (Chatbot.init true false "sid-0" "uid-0" sampleEnvEmpty)
          sampleEnvs).1.message.length = 1 + 2 * sampleEnvs.length
    ∧ (runChats (Chatbot.init true false "sid-0" "uid-0" sampleEnvEmpty)
          sampleEnvs).1.message.head? = some systemMessage) :=
  ⟨rfl, history_invariant_success true false "sid-0" "uid-0" sampleEnvEmpty sampleEnvs rfl⟩
